import Mathlib

/-!
Verification of the pico-ioc resolution engine (`src/pico_ioc`) against its
natural-language specification.

This file is a shallow embedding of the resolution engine:
`container.py` (`PicoContainer.get` / `aget` / `has` / `_canonical_key` /
`_resolve_or_create_internal`, `ResolutionTracer.describe_cycle`),
`scope.py` (`ComponentContainer`, `_NoCacheContainer`, `ScopedCaches.for_scope`),
`factory.py` (`ComponentFactory`), and `aop.py` (`dispatch_method`).

Modelling conventions:
* Python objects with reference identity are values `PyVal.obj addr cls`
  carrying a heap address; allocation is an explicit counter in the state.
  Reference equality is equality of addresses.
* A Python dict is an insertion-ordered association list; `dict.get(k)`
  returns the stored value or `None`, which we model with `PyVal.vNone` as
  the default of the lookup (so `None` stored in a cache bucket is
  indistinguishable from an absent entry, exactly as in CPython).
* Providers are zero-argument callables that may allocate, resolve further
  keys through the container (constructor dependencies resolved by
  `_resolve_args` in `api.py`), raise, or return an awaitable; they are
  deep-embedded as `PExp`.
* `ComponentLocator` (imported from `.locator`, a module not present in the
  source tree) is, per its construction site `Registrar.locator()` in
  `api.py`, a read-only capsule over the `_metadata` dict; the container
  code only ever reads `locator._metadata`, so the locator is represented
  here by that table plus a `hasLocator` flag (`self._locator` is
  `Optional`).
* Exceptions are `Except` results; the exception classes of
  `exceptions.py` become constructors of `PicoErr`.
* Wall-clock data (`took_ms`, timestamps) is dropped.
-/

namespace Pico

/-- Decidable equality of `Except` results, used to state and decide facts
about resolution outcomes. -/
instance {ε α : Type} [DecidableEq ε] [DecidableEq α] : DecidableEq (Except ε α) := fun x y =>
  match x, y with
  | .ok a, .ok b =>
    if h : a = b then isTrue (by rw [h]) else isFalse (fun hh => h (Except.ok.inj hh))
  | .error a, .error b =>
    if h : a = b then isTrue (by rw [h]) else isFalse (fun hh => h (Except.error.inj hh))
  | .ok _, .error _ => isFalse (fun hh => Except.noConfusion hh)
  | .error _, .ok _ => isFalse (fun hh => Except.noConfusion hh)

/-- Resolution keys (`KeyT = Union[str, type]`): a nominal class, identified
by its (unique) name, or a string name. -/
inductive Key where
  | ktype (name : String)
  | kstr (s : String)
deriving DecidableEq, Repr

/-- The class table of the embedded Python program: for each class name the
list of all class names it is a subclass of (including itself), standing in
for Python's `issubclass`. -/
structure TypeTable where
  ancestors : List (String × List String)
deriving DecidableEq, Repr

/-- Lookup in an insertion-ordered association list (a Python dict). -/
def assocGet {α β : Type} [DecidableEq α] : List (α × β) → α → Option β
  | [], _ => none
  | (k, v) :: t, key => if k = key then some v else assocGet t key

/-- Assignment `d[k] = v` on a Python dict: overwrite in place, else append. -/
def assocPut {α β : Type} [DecidableEq α] : List (α × β) → α → β → List (α × β)
  | [], key, v => [(key, v)]
  | (k, w) :: t, key, v => if k = key then (key, v) :: t else (k, w) :: assocPut t key v

/-- Python `issubclass(a, b)` over the class table. -/
def TypeTable.issubclass (tt : TypeTable) (a b : String) : Bool :=
  match assocGet tt.ancestors a with
  | some l => b ∈ l
  | none => a = b

/-- The fields of `ProviderMetadata` (`factory.py`) that the resolution
engine reads: produced type, concrete class, primary flag, declared name,
and scope. -/
structure ProviderMetadata where
  provided_type : Option String
  concrete_class : Option String
  primary : Bool
  pico_name : Option String
  scope : String
deriving DecidableEq, Repr

/-- Python values as the engine observes them: `None`, an object with a heap
address and a class, an awaitable (a coroutine built by `_build_class` in
`api.py`, carrying the post-construction hook it will run and the instance
it will return), or an interception proxy (`UnifiedComponentProxy`) wrapping
an instance. -/
inductive PyVal where
  | vNone
  | obj (addr : Nat) (cls : String)
  | awaitable (hook : Nat) (inner : PyVal)
  | proxyV (addr : Nat) (inner : PyVal)
deriving DecidableEq, Repr

/-- Python `inspect.isawaitable`. -/
def PyVal.isAwaitable : PyVal → Bool
  | .awaitable _ _ => true
  | _ => false

/-- Deep-embedded provider bodies. `depThen` models one constructor
parameter resolved by `_resolve_args` (`api.py`): record the tracer edge,
call `pico.get` on the dependency key, continue. `asyncOf` models a
component whose `__ainit__` hook is asynchronous: the value is computed now
and returned wrapped in a coroutine that runs the hook when awaited. -/
inductive PExp where
  | constE (v : PyVal)
  | fresh (cls : String)
  | depThen (param : String) (dep : Key) (body : PExp)
  | asyncOf (hook : Nat) (body : PExp)
  | raiseE (msg : String)
deriving DecidableEq, Repr

/-- One registered `ContainerObserver` (`aop.py`), with flags saying whether
its callbacks raise when invoked. -/
structure ObsSpec where
  ident : Nat
  raiseOnResolve : Bool
  raiseOnCacheHit : Bool
deriving DecidableEq, Repr

/-- Events recorded by the run: an asynchronous post-construction hook
completed, or an observer callback was invoked. -/
inductive REvent where
  | hookRun (hook : Nat)
  | obsResolve (obs : Nat) (key : Key)
  | obsCacheHit (obs : Nat) (key : Key)
deriving DecidableEq, Repr

/-- One structured line of the cycle diagnostic built by
`ResolutionTracer.describe_cycle` (`container.py`); the Python code joins
the rendered lines with a newline, which is presentation only. -/
inductive CycleLine where
  | text (s : String)
  | node (idx : Nat) (name : String) (scope : String) (failed : Bool)
  | edge (via : String) (param : String) (child : String)
deriving DecidableEq, Repr

/-- The exception taxonomy (`exceptions.py`). `circularDependency` carries
the resolution chain, the repeated key and the structured diagnostics;
its class body is absent from the source tree (imported from
`.exceptions` but not defined there), so its payload is modelled from the
spec: chain plus per-edge diagnostics. `observerRaised` stands for the
arbitrary exception an observer callback may raise, `userError` for an
arbitrary exception a provider may raise, and `fuelOut` is an artifact of
the fuelled embedding (unreachable with enough fuel). -/
inductive PicoErr where
  | providerNotFound (key : Key) (origin : Option Key)
  | componentCreation (key : Key) (cause : PicoErr)
  | circularDependency (chain : List Key) (current : Key) (details : List CycleLine)
  | asyncResolution (key : Key)
  | scopeError (scope : String)
  | observerRaised (obs : Nat)
  | userError (msg : String)
  | fuelOut
deriving DecidableEq, Repr

/-- Which cache bucket `ScopedCaches.for_scope` handed out: the shared
singleton `ComponentContainer` or the `_NoCacheContainer` used for
prototype scope. -/
inductive Bucket where
  | singletonB
  | noCacheB
deriving DecidableEq, Repr

/-- The whole mutable world of one container: factory registry, locator
metadata, the singleton cache bucket, observers, plus the tracer state and
the instrumentation (provider-invocation log, allocation counter, event
log, counters) needed to state the claims. Scope activation is not
modelled: no non-singleton, non-prototype scope ever has an active id,
exactly the situation of a bare container (`ScopeManager.get_id` then
returns `None` and `for_scope` raises `ScopeError`). -/
structure PicoState where
  typetable : TypeTable
  interceptedClasses : List String
  hasLocator : Bool
  metadata : List (Key × ProviderMetadata)
  providers : List (Key × PExp)
  singleton : List (Key × PyVal)
  observers : List ObsSpec
  tracerStack : List (Key × String)
  tracerEdges : List ((Key × Key) × (String × String))
  invocations : List Key
  nextAddr : Nat
  events : List REvent
  resolveCount : Nat
  cacheHitCount : Nat
deriving DecidableEq, Repr

/-- Source `ComponentFactory.has` (`factory.py`). -/
def factoryHas (st : PicoState) (key : Key) : Bool :=
  (assocGet st.providers key).isSome

/-- Source `ComponentFactory.bind` (`factory.py`): store the provider, replacing
any previous binding. Nothing else is touched. -/
def bindProvider (st : PicoState) (key : Key) (p : PExp) : PicoState :=
  { st with providers := assocPut st.providers key p }

/-- Python `getattr(k, "__name__", str(k))` on a key. -/
def nameOf : Key → String
  | .ktype n => n
  | .kstr s => s

/-- The scope recorded for a key: `describe_cycle.scope_of` and the scope
lookup of `PicoContainer._cache_for` (`container.py`): the metadata entry's
scope, defaulting to `"singleton"` when there is no locator or no entry. -/
def scopeOf (st : PicoState) (k : Key) : String :=
  if st.hasLocator then
    match assocGet st.metadata k with
    | some md => md.scope
    | none => "singleton"
  else "singleton"

/-- Source `ScopedCaches.for_scope` (`scope.py`): the singleton bucket, the no-op
prototype bucket, or — since no scope id is ever active here — a
`ScopeError` for every other scope name. -/
def forScope (scope : String) : Except PicoErr Bucket :=
  if scope = "singleton" then .ok .singletonB
  else if scope = "prototype" then .ok .noCacheB
  else .error (.scopeError scope)

/-- Source `PicoContainer._cache_for` (`container.py`). -/
def cacheFor (st : PicoState) (key : Key) : Except PicoErr Bucket :=
  forScope (scopeOf st key)

/-- Source `ComponentContainer.get` / `_NoCacheContainer.get` (`scope.py`): the
stored value, with `None` for an absent entry (and the prototype bucket
always answers `None`). -/
def bucketGet (st : PicoState) : Bucket → Key → PyVal
  | .singletonB, k => (assocGet st.singleton k).getD .vNone
  | .noCacheB, _ => .vNone

/-- Source `ComponentContainer.put` / `_NoCacheContainer.put` (`scope.py`): store
the value in the singleton bucket; the prototype bucket's put is a no-op. -/
def bucketPut (st : PicoState) : Bucket → Key → PyVal → PicoState
  | .singletonB, k, v => { st with singleton := assocPut st.singleton k v }
  | .noCacheB, _, _ => st

/-- Source `PicoContainer.has` (`container.py`): a cache entry for the exact key,
or a registry binding for the exact key. -/
def hasKey (st : PicoState) (key : Key) : Except PicoErr Bool :=
  match cacheFor st key with
  | .error e => .error e
  | .ok b => .ok (if bucketGet st b key = .vNone then factoryHas st key else true)

/-- Source `PicoContainer._canonical_key` (`container.py`): an exactly-bound key is
returned unchanged; a type key is canonicalized to a registered descriptor
whose produced/concrete type is a proper subtype, primary candidates first,
else the first registered; a string key is canonicalized to the first
descriptor whose declared `pico_name` equals it; anything else passes
through unchanged. -/
def canonicalKey (st : PicoState) (key : Key) : Key :=
  if factoryHas st key then key
  else
    match key with
    | .ktype name =>
      if st.hasLocator then
        let cands := st.metadata.filterMap (fun kmd =>
          match kmd.2.provided_type.orElse (fun _ => kmd.2.concrete_class) with
          | some typ =>
            if typ ≠ name ∧ st.typetable.issubclass typ name then
              some (kmd.2.primary, kmd.1)
            else none
          | none => none)
        match cands with
        | [] => key
        | c :: _ =>
          match cands.filter (fun pk => pk.1) with
          | [] => c.2
          | p :: _ => p.2
      else key
    | .kstr s =>
      if st.hasLocator then
        match st.metadata.find? (fun kmd => kmd.2.pico_name = some s) with
        | some kmd => kmd.1
        | none => key
      else key

/-- The node/edge rows of `describe_cycle`: one row per chain entry
(1-based index, name, scope, failure mark on the last) and, between
consecutive entries, the recorded tracer edge (defaulting to
`("provider", "?")`). -/
def cycleRows (st : PicoState) (idx total : Nat) : List Key → List CycleLine
  | [] => []
  | k :: rest =>
    let nodeLine := CycleLine.node idx (nameOf k) (scopeOf st k) (idx = total)
    match rest with
    | [] => [nodeLine]
    | child :: _ =>
      let viaParam := (assocGet st.tracerEdges (k, child)).getD ("provider", "?")
      nodeLine :: CycleLine.edge viaParam.1 viaParam.2 (nameOf child)
        :: cycleRows st (idx + 1) total rest

/-- Source `ResolutionTracer.describe_cycle` (`container.py`), as structured
lines. -/
def describeCycle (st : PicoState) (chain : List Key) (current : Key) : List CycleLine :=
  let full := chain ++ [current]
  [CycleLine.text "Circular dependency detected.", CycleLine.text "",
   CycleLine.text "Resolution chain:"]
  ++ cycleRows st 1 full.length full
  ++ [CycleLine.text "",
      CycleLine.text "Hint: break the cycle with a @configure setter or use a factory/provider."]

/-- The observer loop `for o in self._observers: o.on_cache_hit(key)`
(`container.py`): each callback runs in order; a raising callback aborts
the loop and the exception propagates (there is no try/except around it). -/
def notifyCacheHit (st : PicoState) (obs : List ObsSpec) (key : Key) :
    PicoState × Except PicoErr Unit :=
  match obs with
  | [] => (st, .ok ())
  | o :: rest =>
    let st1 := { st with events := st.events ++ [.obsCacheHit o.ident key] }
    if o.raiseOnCacheHit then (st1, .error (.observerRaised o.ident))
    else notifyCacheHit st1 rest key

/-- The observer loop `for o in self._observers: o.on_resolve(key, took_ms)`
(`container.py`), same convention. -/
def notifyResolve (st : PicoState) (obs : List ObsSpec) (key : Key) :
    PicoState × Except PicoErr Unit :=
  match obs with
  | [] => (st, .ok ())
  | o :: rest =>
    let st1 := { st with events := st.events ++ [.obsResolve o.ident key] }
    if o.raiseOnResolve then (st1, .error (.observerRaised o.ident))
    else notifyResolve st1 rest key

/-- Source `PicoContainer._maybe_wrap_with_aspects` (`container.py`): a proxy is
returned unchanged; an object whose class has a method carrying
`_pico_interceptors_` is wrapped in a freshly allocated
`UnifiedComponentProxy`; everything else is returned raw. -/
def maybeWrap (st : PicoState) (v : PyVal) : PicoState × PyVal :=
  match v with
  | .proxyV a i => (st, .proxyV a i)
  | .obj a cls =>
    if cls ∈ st.interceptedClasses then
      ({ st with nextAddr := st.nextAddr + 1 }, .proxyV st.nextAddr (.obj a cls))
    else (st, .obj a cls)
  | v => (st, v)

/-- Source `tracer.leave`: pop the frame pushed by `tracer.enter` (token reset on a
well-bracketed stack). -/
def popTracer (st : PicoState) : PicoState :=
  { st with tracerStack := st.tracerStack.dropLast }

/-- A `ProviderNotFoundError` passes through the provider-invocation
`try/except` unwrapped; every other exception is wrapped in
`ComponentCreationError(key, cause)` (`container.py`). -/
def wrapCreation (key : Key) (e : PicoErr) : PicoErr :=
  match e with
  | .providerNotFound k o => .providerNotFound k o
  | e => .componentCreation key e

/-- The three mutually recursive operations of the resolution engine, as
one request type so that the interpreter below is structurally recursive on
its fuel (and therefore reducible by the kernel): a `pico.get` call under a
given resolution chain, a `_resolve_or_create_internal` call, and the
invocation of a provider body. -/
inductive Req where
  | getR (chain : List Key) (key : Key)
  | resolveR (chain : List Key) (key : Key)
  | evalR (chain : List Key) (e : PExp)
deriving DecidableEq, Repr

/-- The fuelled interpreter of the resolution engine. The three request
kinds mirror, line for line, the three Python code paths:

`getR` is `PicoContainer.get` (`container.py`) with the resolution-chain
contextvar made explicit (nested dependency resolutions call `pico.get`
under the chain set by the enclosing `_resolve_or_create_internal`):
resolve; a cache hit short-circuits; an awaitable result raises
`AsyncResolutionError` naming the requested key; otherwise wrap, commit to
the bucket of the requested (not the canonical) key, bump the resolve
counter, notify observers, and return the final instance. The boolean of
the result is the was-cached flag (meaningful for `resolveR`, carried along
for the others).

`resolveR` is `PicoContainer._resolve_or_create_internal` (`container.py`):
canonicalize, check the scope cache (a hit bumps the counter and notifies
observers), fail fast when the canonical key is already on the resolution
chain, then push chain and tracer frame, fetch the provider (raising
`ProviderNotFoundError` with the chain tail as origin), invoke it (wrapping
its exceptions), and pop the tracer frame on every exit (the chain
contextvar is reset by returning to the caller's explicit chain).

`evalR` invokes a provider body. `depThen` follows `_resolve_args`
(`api.py`): the tracer frame's `via` is overridden to `"constructor"`,
`note_param` records the edge from the enclosing tracer frame's key to the
dependency key, and the dependency is resolved with `pico.get` under the
current chain. -/
def run : Nat → PicoState → Req → PicoState × Except PicoErr (PyVal × Bool)
  | 0, st, _ => (st, .error .fuelOut)
  | fuel + 1, st, .getR chain key =>
    (match run fuel st (.resolveR chain key) with
    | (st1, .error e) => (st1, .error e)
    | (st1, .ok (v, wasCached)) =>
      if wasCached then (st1, .ok (v, true))
      else if v.isAwaitable then (st1, .error (.asyncResolution key))
      else
        let wrapped := maybeWrap st1 v
        match cacheFor wrapped.1 key with
        | .error e => (wrapped.1, .error e)
        | .ok bucket =>
          let st3 := bucketPut wrapped.1 bucket key wrapped.2
          let st4 := { st3 with resolveCount := st3.resolveCount + 1 }
          match notifyResolve st4 st4.observers key with
          | (st5, .error e) => (st5, .error e)
          | (st5, .ok _) => (st5, .ok (wrapped.2, false)))
  | fuel + 1, st, .resolveR chain key0 =>
    let key := canonicalKey st key0
    (match cacheFor st key with
    | .error e => (st, .error e)
    | .ok bucket =>
      let cached := bucketGet st bucket key
      if cached ≠ .vNone then
        let st1 := { st with cacheHitCount := st.cacheHitCount + 1 }
        match notifyCacheHit st1 st1.observers key with
        | (st2, .error e) => (st2, .error e)
        | (st2, .ok _) => (st2, .ok (cached, true))
      else if key ∈ chain then
        (st, .error (.componentCreation key
          (.circularDependency chain key (describeCycle st chain key))))
      else
        let chainP := chain ++ [key]
        let st1 := { st with tracerStack := st.tracerStack ++ [(key, "provider")] }
        match assocGet st1.providers key with
        | none => (popTracer st1, .error (.providerNotFound key chain.getLast?))
        | some p =>
          let st2 := { st1 with invocations := st1.invocations ++ [key] }
          match run fuel st2 (.evalR chainP p) with
          | (st3, .error e) => (popTracer st3, .error (wrapCreation key e))
          | (st3, .ok (v, _)) => (popTracer st3, .ok (v, false)))
  | _ + 1, st, .evalR _ (.constE v) => (st, .ok (v, false))
  | _ + 1, st, .evalR _ (.fresh cls) =>
    ({ st with nextAddr := st.nextAddr + 1 }, .ok (.obj st.nextAddr cls, false))
  | _ + 1, st, .evalR _ (.raiseE msg) => (st, .error (.userError msg))
  | fuel + 1, st, .evalR chain (.asyncOf hook body) =>
    (match run fuel st (.evalR chain body) with
    | (st1, .error e) => (st1, .error e)
    | (st1, .ok (v, _)) => (st1, .ok (.awaitable hook v, false)))
  | fuel + 1, st, .evalR chain (.depThen param dep body) =>
    let st1 :=
      match st.tracerStack.getLast? with
      | some frame =>
        { st with tracerEdges := assocPut st.tracerEdges (frame.1, dep) ("constructor", param) }
      | none => st
    (match run fuel st1 (.getR chain dep) with
    | (st2, .error e) => (st2, .error e)
    | (st2, .ok _) => run fuel st2 (.evalR chain body))

/-- Call `pico.get(key)` under an explicit resolution chain. -/
def getWithChain (fuel : Nat) (st : PicoState) (chain : List Key) (key : Key) :
    PicoState × Except PicoErr PyVal :=
  match run fuel st (.getR chain key) with
  | (st1, .error e) => (st1, .error e)
  | (st1, .ok (v, _)) => (st1, .ok v)

/-- Source `_resolve_or_create_internal`, as called by `get` and `aget`. -/
def resolveInternal (fuel : Nat) (st : PicoState) (chain : List Key) (key : Key) :
    PicoState × Except PicoErr (PyVal × Bool) :=
  run fuel st (.resolveR chain key)

/-- Call `container.get(key)`: a top-level call starts with an empty resolution
chain. -/
def getTop (fuel : Nat) (st : PicoState) (key : Key) : PicoState × Except PicoErr PyVal :=
  getWithChain fuel st [] key

/-- Awaiting an awaitable runs the coroutine of `_build_class`: the
asynchronous post-construction hook runs, then the instance is returned.
On a non-awaitable this is the identity (`aget` only awaits when
`inspect.isawaitable` holds). -/
def awaitVal (st : PicoState) (v : PyVal) : PicoState × PyVal :=
  match v with
  | .awaitable hook inner => ({ st with events := st.events ++ [.hookRun hook] }, inner)
  | v => (st, v)

/-- Source `PicoContainer.aget` (`container.py`): same as `get` except an
awaitable result is awaited (running the asynchronous hook) instead of
raising. -/
def aget (fuel : Nat) (st : PicoState) (key : Key) : PicoState × Except PicoErr PyVal :=
  match resolveInternal fuel st [] key with
  | (st1, .error e) => (st1, .error e)
  | (st1, .ok (v, wasCached)) =>
    if wasCached then (st1, .ok v)
    else
      let awaited := awaitVal st1 v
      let wrapped := maybeWrap awaited.1 awaited.2
      match cacheFor wrapped.1 key with
      | .error e => (wrapped.1, .error e)
      | .ok bucket =>
        let st3 := bucketPut wrapped.1 bucket key wrapped.2
        let st4 := { st3 with resolveCount := st3.resolveCount + 1 }
        match notifyResolve st4 st4.observers key with
        | (st5, .error e) => (st5, .error e)
        | (st5, .ok _) => (st5, .ok wrapped.2)

/-! ## Shared infrastructure for the claim theorems -/

/-- A freshly initialised container (`init` in `api.py` with the locator
attached): empty caches, empty tracer, zeroed counters. -/
def initState (tt : TypeTable) (intercepted : List String)
    (md : List (Key × ProviderMetadata)) (prov : List (Key × PExp))
    (obs : List ObsSpec) : PicoState :=
  { typetable := tt, interceptedClasses := intercepted, hasLocator := true,
    metadata := md, providers := prov, singleton := [], observers := obs,
    tracerStack := [], tracerEdges := [], invocations := [], nextAddr := 0,
    events := [], resolveCount := 0, cacheHitCount := 0 }

lemma assocGet_assocPut_self {α β : Type} [DecidableEq α]
    (l : List (α × β)) (k : α) (v : β) : assocGet (assocPut l k v) k = some v := by
  induction l with
  | nil => simp [assocPut, assocGet]
  | cons h t ih =>
    by_cases hk : h.1 = k
    · simp [assocPut, hk, assocGet]
    · simp [assocPut, hk, assocGet, ih]

@[simp] lemma maybeWrap_eq_none_iff (st : PicoState) (v : PyVal) :
    (maybeWrap st v).2 = .vNone ↔ v = .vNone := by
  cases v <;> simp [maybeWrap]
  split <;> simp

@[simp] lemma maybeWrap_singleton (st : PicoState) (v : PyVal) :
    (maybeWrap st v).1.singleton = st.singleton := by
  cases v <;> simp [maybeWrap]
  split <;> simp

@[simp] lemma maybeWrap_providers (st : PicoState) (v : PyVal) :
    (maybeWrap st v).1.providers = st.providers := by
  cases v <;> simp [maybeWrap]
  split <;> simp

@[simp] lemma maybeWrap_metadata (st : PicoState) (v : PyVal) :
    (maybeWrap st v).1.metadata = st.metadata := by
  cases v <;> simp [maybeWrap]
  split <;> simp

@[simp] lemma maybeWrap_hasLocator (st : PicoState) (v : PyVal) :
    (maybeWrap st v).1.hasLocator = st.hasLocator := by
  cases v <;> simp [maybeWrap]
  split <;> simp

@[simp] lemma maybeWrap_observers (st : PicoState) (v : PyVal) :
    (maybeWrap st v).1.observers = st.observers := by
  cases v <;> simp [maybeWrap]
  split <;> simp

@[simp] lemma maybeWrap_invocations (st : PicoState) (v : PyVal) :
    (maybeWrap st v).1.invocations = st.invocations := by
  cases v <;> simp [maybeWrap]
  split <;> simp

@[simp] lemma maybeWrap_events (st : PicoState) (v : PyVal) :
    (maybeWrap st v).1.events = st.events := by
  cases v <;> simp [maybeWrap]
  split <;> simp

@[simp] lemma maybeWrap_cacheHitCount (st : PicoState) (v : PyVal) :
    (maybeWrap st v).1.cacheHitCount = st.cacheHitCount := by
  cases v <;> simp [maybeWrap]
  split <;> simp

@[simp] lemma maybeWrap_resolveCount (st : PicoState) (v : PyVal) :
    (maybeWrap st v).1.resolveCount = st.resolveCount := by
  cases v <;> simp [maybeWrap]
  split <;> simp

@[simp] lemma maybeWrap_typetable (st : PicoState) (v : PyVal) :
    (maybeWrap st v).1.typetable = st.typetable := by
  cases v <;> simp [maybeWrap]
  split <;> simp

@[simp] lemma maybeWrap_interceptedClasses (st : PicoState) (v : PyVal) :
    (maybeWrap st v).1.interceptedClasses = st.interceptedClasses := by
  cases v <;> simp [maybeWrap]
  split <;> simp

@[simp] lemma maybeWrap_tracerStack (st : PicoState) (v : PyVal) :
    (maybeWrap st v).1.tracerStack = st.tracerStack := by
  cases v <;> simp [maybeWrap]
  split <;> simp

@[simp] lemma maybeWrap_tracerEdges (st : PicoState) (v : PyVal) :
    (maybeWrap st v).1.tracerEdges = st.tracerEdges := by
  cases v <;> simp [maybeWrap]
  split <;> simp

/-! ## C3 — asynchronous construction: `get` fails, `aget` awaits -/

/-- A container with one binding whose component has an asynchronous
post-construction hook: the provider builds a fresh instance and returns it
wrapped in a coroutine (`_build_class` returning `runner()`). -/
def C3State (K : Key) (hook : Nat) (cls : String) : PicoState :=
  initState ⟨[]⟩ [] [] [(K, .asyncOf hook (.fresh cls))] []

/-- C3: for a component whose construction/post-construction hook is
asynchronous (the provider returns an awaitable), synchronous `get` fails
with `AsyncResolutionError` naming the requested key and commits nothing to
the cache, while `aget` awaits the awaitable — the asynchronous hook has
run by the time `aget` returns the instance — and commits it. -/
theorem async_component_get_fails_aget_succeeds (K : Key) (hook : Nat) (cls : String) :
    ((getTop 9 (C3State K hook cls) K).2 = .error (.asyncResolution K)) ∧
    ((getTop 9 (C3State K hook cls) K).1.singleton = []) ∧
    ((aget 9 (C3State K hook cls) K).2 = .ok (.obj 0 cls)) ∧
    ((aget 9 (C3State K hook cls) K).1.events = [.hookRun hook]) ∧
    ((aget 9 (C3State K hook cls) K).1.singleton = [(K, .obj 0 cls)]) := by
  refine ⟨?_, ?_, ?_, ?_, ?_⟩ <;>
    simp [C3State, initState, getTop, getWithChain, aget, resolveInternal, run,
      canonicalKey, factoryHas, assocGet, cacheFor, scopeOf, forScope, bucketGet,
      bucketPut, assocPut, notifyResolve, notifyCacheHit, maybeWrap, popTracer,
      wrapCreation, awaitVal, PyVal.isAwaitable]

/-! ## C4 — prototype scope never caches -/

/-- A container with one prototype-scoped binding whose provider constructs
a fresh instance (a class constructor). -/
def C4State (K : Key) (cls : String) : PicoState :=
  initState ⟨[]⟩ [] [(K, ⟨none, none, false, none, "prototype"⟩)] [(K, .fresh cls)] []

/-- C4: the prototype bucket's `put` is a no-op and its `get` always
misses; consequently `get(K)` on a prototype-scoped key invokes the
provider on every call and two calls return two distinct instances
(distinct heap addresses). -/
theorem prototype_two_gets_distinct (K : Key) (cls : String) :
    (∀ (st : PicoState) (k : Key), bucketGet st .noCacheB k = .vNone) ∧
    (∀ (st : PicoState) (k : Key) (v : PyVal), bucketPut st .noCacheB k v = st) ∧
    ((getTop 9 (C4State K cls) K).2 = .ok (.obj 0 cls)) ∧
    ((getTop 9 (getTop 9 (C4State K cls) K).1 K).2 = .ok (.obj 1 cls)) ∧
    (PyVal.obj 0 cls ≠ PyVal.obj 1 cls) ∧
    ((getTop 9 (getTop 9 (C4State K cls) K).1 K).1.invocations = [K, K]) := by
  refine ⟨fun st k => rfl, fun st k v => rfl, ?_, ?_, by simp, ?_⟩ <;>
    simp [C4State, initState, getTop, getWithChain, run, canonicalKey, factoryHas,
      assocGet, cacheFor, scopeOf, forScope, bucketGet, bucketPut, assocPut,
      notifyResolve, notifyCacheHit, maybeWrap, popTracer, wrapCreation,
      PyVal.isAwaitable]

/-! ## C10 — a `None` result is never observed as cached -/

/-- A container with one singleton binding whose provider returns `None`. -/
def C10State (K : Key) : PicoState :=
  initState ⟨[]⟩ [] [] [(K, .constE .vNone)] []

/-- C10: the cache-hit test in `_resolve_or_create_internal` is
`cached is not None`, so a singleton provider returning `None` has its
result stored in the bucket yet every subsequent `get` misses and
re-invokes the provider: exactly-once construction holds only for
providers returning non-`None` instances. -/
theorem none_instance_never_cached (K : Key) :
    ((getTop 9 (C10State K) K).2 = .ok .vNone) ∧
    ((getTop 9 (C10State K) K).1.singleton = [(K, .vNone)]) ∧
    ((getTop 9 (getTop 9 (C10State K) K).1 K).2 = .ok .vNone) ∧
    ((getTop 9 (getTop 9 (C10State K) K).1 K).1.invocations = [K, K]) := by
  refine ⟨?_, ?_, ?_, ?_⟩ <;>
    simp [C10State, initState, getTop, getWithChain, run, canonicalKey, factoryHas,
      assocGet, cacheFor, scopeOf, forScope, bucketGet, bucketPut, assocPut,
      notifyResolve, notifyCacheHit, maybeWrap, popTracer, wrapCreation,
      PyVal.isAwaitable]

/-! ## C1 — singleton identity and exactly-once construction -/

/-- A container with one binding, no metadata (scope defaults to
singleton), whose provider returns the fixed value `v`. -/
def C1State (K : Key) (v : PyVal) : PicoState :=
  initState ⟨[]⟩ [] [] [(K, .constE v)] []

/-- C1 counterexample: a singleton-scoped key bound to a provider that
returns `None`. Both calls return the identical value, but the provider is
invoked twice, not exactly once — the second call is not served from the
singleton cache bucket (the `is not None` hit test always misses on
`None`), refuting the claim as universally stated. -/
theorem singleton_once_counterexample :
    ((getTop 9 (C1State (.kstr "x") .vNone) (.kstr "x")).2 = .ok .vNone) ∧
    ((getTop 9 (getTop 9 (C1State (.kstr "x") .vNone) (.kstr "x")).1 (.kstr "x")).2
      = .ok .vNone) ∧
    ((getTop 9 (getTop 9 (C1State (.kstr "x") .vNone) (.kstr "x")).1 (.kstr "x")).1.invocations
      = [.kstr "x", .kstr "x"]) ∧
    [Key.kstr "x", Key.kstr "x"] ≠ [Key.kstr "x"] := by
  refine ⟨by decide, by decide, by decide, by decide⟩

/-- C1 amended: for a singleton-scoped key bound to a provider returning a
non-`None`, non-awaitable instance, two `get` calls return the identical
instance and the provider is invoked exactly once; the second call is a
cache hit on the singleton bucket. -/
theorem singleton_get_twice_identical (K : Key) (v : PyVal)
    (hv : v ≠ .vNone) (hva : v.isAwaitable = false) :
    ∃ w, ((getTop 9 (C1State K v) K).2 = .ok w) ∧
      ((getTop 9 (getTop 9 (C1State K v) K).1 K).2 = .ok w) ∧
      ((getTop 9 (getTop 9 (C1State K v) K).1 K).1.invocations = [K]) ∧
      ((getTop 9 (getTop 9 (C1State K v) K).1 K).1.cacheHitCount = 1) := by
  refine ⟨(maybeWrap ((run 8 (C1State K v) (.resolveR [] K)).1) v).2, ?_, ?_, ?_, ?_⟩ <;>
    simp [C1State, initState, getTop, getWithChain, run, canonicalKey, factoryHas,
      assocGet, cacheFor, scopeOf, forScope, bucketGet, bucketPut, assocPut,
      notifyResolve, notifyCacheHit, popTracer, wrapCreation, hv, hva]

/-- C1 amended, witnessed at a concrete input: key `"x"` bound to a
provider returning a fixed dict object. -/
theorem singleton_get_twice_identical_witness :
    ∃ w, ((getTop 9 (C1State (.kstr "x") (.obj 5 "dict")) (.kstr "x")).2 = .ok w) ∧
      ((getTop 9 (getTop 9 (C1State (.kstr "x") (.obj 5 "dict")) (.kstr "x")).1 (.kstr "x")).2
        = .ok w) ∧
      ((getTop 9 (getTop 9 (C1State (.kstr "x") (.obj 5 "dict")) (.kstr "x")).1
          (.kstr "x")).1.invocations = [.kstr "x"]) ∧
      ((getTop 9 (getTop 9 (C1State (.kstr "x") (.obj 5 "dict")) (.kstr "x")).1
          (.kstr "x")).1.cacheHitCount = 1) :=
  singleton_get_twice_identical (.kstr "x") (.obj 5 "dict") (by decide) (by decide)

/-- A `get` whose canonical key has a non-`None` entry in the singleton
bucket is a pure cache hit: the counter is bumped, no provider runs, and
the cached instance is returned. -/
lemma run_get_cache_hit (fuel : Nat) (st : PicoState) (chain : List Key) (K : Key) (v : PyVal)
    (hcanon : canonicalKey st K = K)
    (hcf : cacheFor st K = .ok .singletonB)
    (hc : assocGet st.singleton K = some v)
    (hv : ¬ v = .vNone)
    (hobs : st.observers = []) :
    run (fuel + 2) st (.getR chain K) =
      ({ st with cacheHitCount := st.cacheHitCount + 1 }, .ok (v, true)) := by
  simp [run, hcanon, hcf, bucketGet, hc, hv, hobs, notifyCacheHit]

/-! ## C6 — binding does not clear the cached instance -/

/-- A container with key `"x"` bound to a constructor of class `C`. -/
def C6State : PicoState :=
  initState ⟨[]⟩ [] [] [(.kstr "x", .fresh "C")] []

/-- C6 counterexample: resolve `"x"` once (caching a `C` instance), rebind
`"x"` to a constructor of class `D`, resolve again: the cached instance
survives the rebind untouched, the second `get` returns the stale `C`
instance via a cache hit, and the new provider is never invoked — refuting
the claim that binding clears the cached instance. -/
theorem bind_clears_cache_counterexample :
    ((bindProvider (getTop 9 C6State (.kstr "x")).1 (.kstr "x") (.fresh "D")).singleton
      = [(.kstr "x", .obj 0 "C")]) ∧
    ((getTop 9 (bindProvider (getTop 9 C6State (.kstr "x")).1 (.kstr "x") (.fresh "D"))
        (.kstr "x")).2 = .ok (.obj 0 "C")) ∧
    ((getTop 9 (bindProvider (getTop 9 C6State (.kstr "x")).1 (.kstr "x") (.fresh "D"))
        (.kstr "x")).1.invocations = [.kstr "x"]) ∧
    ((getTop 9 (bindProvider (getTop 9 C6State (.kstr "x")).1 (.kstr "x") (.fresh "D"))
        (.kstr "x")).2 ≠ .ok (.obj 1 "D")) := by
  refine ⟨by decide, by decide, by decide, by decide⟩

/-- C6 amended: `ComponentFactory.bind` replaces the provider binding and
touches nothing else — in particular it does not clear the cached instance
for the key, so while an instance is cached a later `get` returns that
stale instance via a cache hit and never invokes the newly bound
provider. -/
theorem bind_keeps_cached_instance (st : PicoState) (K : Key) (p : PExp) (v : PyVal)
    (hc : assocGet st.singleton K = some v) (hv : v ≠ .vNone)
    (hscope : cacheFor st K = .ok .singletonB) (hobs : st.observers = []) :
    ((bindProvider st K p).singleton = st.singleton) ∧
    ((bindProvider st K p).providers = assocPut st.providers K p) ∧
    ((getTop 9 (bindProvider st K p) K).2 = .ok v) ∧
    ((getTop 9 (bindProvider st K p) K).1.invocations = st.invocations) := by
  have hso : (bindProvider st K p).singleton = st.singleton := rfl
  have hobs2 : (bindProvider st K p).observers = [] := hobs
  have hcanon : canonicalKey (bindProvider st K p) K = K := by
    simp [canonicalKey, factoryHas, bindProvider, assocGet_assocPut_self]
  have hcf : cacheFor (bindProvider st K p) K = .ok .singletonB := by
    simpa [cacheFor, scopeOf, bindProvider] using hscope
  have hrun := run_get_cache_hit 7 (bindProvider st K p) [] K v hcanon hcf
    (by rw [hso]; exact hc) hv hobs2
  norm_num at hrun
  refine ⟨rfl, rfl, ?_, ?_⟩ <;>
    · simp only [getTop, getWithChain]
      rw [hrun]
      try simp [bindProvider]

/-- C6 amended, witnessed: the state reached by resolving `"x"` once in
`C6State`, rebound to a `D` constructor. -/
theorem bind_keeps_cached_instance_witness :
    (((bindProvider (getTop 9 C6State (.kstr "x")).1 (.kstr "x") (.fresh "D")).singleton
      = (getTop 9 C6State (.kstr "x")).1.singleton)) ∧
    (((bindProvider (getTop 9 C6State (.kstr "x")).1 (.kstr "x") (.fresh "D")).providers
      = assocPut (getTop 9 C6State (.kstr "x")).1.providers (.kstr "x") (.fresh "D"))) ∧
    ((getTop 9 (bindProvider (getTop 9 C6State (.kstr "x")).1 (.kstr "x") (.fresh "D"))
        (.kstr "x")).2 = .ok (.obj 0 "C")) ∧
    ((getTop 9 (bindProvider (getTop 9 C6State (.kstr "x")).1 (.kstr "x") (.fresh "D"))
        (.kstr "x")).1.invocations = (getTop 9 C6State (.kstr "x")).1.invocations) :=
  bind_keeps_cached_instance (getTop 9 C6State (.kstr "x")).1 (.kstr "x") (.fresh "D")
    (.obj 0 "C") (by decide) (by decide) (by decide) (by decide)

/-! ## C7 — observer failures are not isolated -/

/-- A container whose sole observer raises from `on_resolve`, with `"x"`
bound to a constructor of class `C`. -/
def C7State : PicoState :=
  initState ⟨[]⟩ [] [] [(.kstr "x", .fresh "C")] [⟨7, true, false⟩]

/-- A container whose sole observer raises from `on_cache_hit`, with a `C`
instance already cached for `"x"`. -/
def C7HitState : PicoState :=
  { initState ⟨[]⟩ [] [] [(.kstr "x", .fresh "C")] [⟨8, false, true⟩] with
      singleton := [(.kstr "x", .obj 1 "C")] }

/-- C7 counterexample: the observer notification loops in `get` and
`_resolve_or_create_internal` have no try/except, so an observer whose
`on_resolve` raises makes `get` raise instead of returning the resolved
instance — refuting the claim that observer failures never affect
resolution. -/
theorem observer_failure_counterexample :
    ((getTop 9 C7State (.kstr "x")).2 = .error (.observerRaised 7)) ∧
    ((getTop 9 C7State (.kstr "x")).2 ≠ .ok (.obj 0 "C")) := by
  refine ⟨by decide, by decide⟩

/-- C7 amended: an exception raised by an observer callback propagates to
the `get` caller — after the instance has been committed to the cache for
`on_resolve`, and instead of the cached instance being returned for
`on_cache_hit`. -/
theorem observer_failure_propagates :
    ((getTop 9 C7State (.kstr "x")).2 = .error (.observerRaised 7)) ∧
    ((getTop 9 C7State (.kstr "x")).1.singleton = [(.kstr "x", .obj 0 "C")]) ∧
    ((getTop 9 C7HitState (.kstr "x")).2 = .error (.observerRaised 8)) ∧
    ((getTop 9 C7HitState (.kstr "x")).1.cacheHitCount = 1) := by
  refine ⟨by decide, by decide, by decide, by decide⟩

/-! ## C9 — `has` tests the exact key only, `get` canonicalizes -/

/-- A container registering a concrete class `Impl` (a subclass of `Base`)
under the key `Impl`; nothing is bound to the `Base` key itself. -/
def C9State : PicoState :=
  initState ⟨[("Impl", ["Impl", "Base"])]⟩ []
    [(.ktype "Impl", ⟨none, some "Impl", false, some "impl", "singleton"⟩)]
    [(.ktype "Impl", .fresh "Impl")] []

/-- C9: `has` consults only the exact key (cache entry or registry
binding, no canonicalization), so for the unbound supertype `Base` of the
registered concrete class `Impl`, `has(Base)` is `False` while `get(Base)`
canonicalizes to `Impl` and succeeds. -/
theorem has_false_get_succeeds :
    (hasKey C9State (.ktype "Base") = .ok false) ∧
    (factoryHas C9State (.ktype "Base") = false) ∧
    (canonicalKey C9State (.ktype "Base") = .ktype "Impl") ∧
    ((getTop 9 C9State (.ktype "Base")).2 = .ok (.obj 0 "Impl")) := by
  refine ⟨by decide, by decide, by decide, by decide⟩

/-! ## C2 — circular dependency detection -/

/-- A container with a constructor cycle: component `A` requires `B`
through constructor parameter `"b"`, and `B` requires `A` through
constructor parameter `"a"`. -/
def C2State (na nb : String) : PicoState :=
  initState ⟨[]⟩ [] []
    [(.ktype na, .depThen "b" (.ktype nb) (.fresh na)),
     (.ktype nb, .depThen "a" (.ktype na) (.fresh nb))] []

/-- C2: for a dependency cycle `A → B → A` declared via constructor
dependencies, `get(A)` fails: when resolution of `A` re-encounters `A`
already on the resolution chain `[A, B]`, it fails fast with a
`CircularDependencyError` (wrapped per level in `ComponentCreationError`)
carrying the full chain — which contains both `A` and `B` — plus, per
edge, the requesting parameter name (`"b"`, `"a"`, via the constructor)
and the scope of every chain entry. -/
theorem cycle_detected (na nb : String) (hne : na ≠ nb) :
    ((getTop 9 (C2State na nb) (.ktype na)).2 =
      .error (.componentCreation (.ktype na) (.componentCreation (.ktype nb)
        (.componentCreation (.ktype na)
          (.circularDependency [.ktype na, .ktype nb] (.ktype na)
            [.text "Circular dependency detected.", .text "",
             .text "Resolution chain:",
             .node 1 na "singleton" false,
             .edge "constructor" "b" nb,
             .node 2 nb "singleton" false,
             .edge "constructor" "a" na,
             .node 3 na "singleton" true,
             .text "",
             .text "Hint: break the cycle with a @configure setter or use a factory/provider."]))))) ∧
    (Key.ktype na ∈ [Key.ktype na, Key.ktype nb]) ∧
    (Key.ktype nb ∈ [Key.ktype na, Key.ktype nb]) := by
  refine ⟨?_, by simp, by simp⟩
  simp [C2State, initState, getTop, getWithChain, run, canonicalKey, factoryHas,
    assocGet, cacheFor, scopeOf, forScope, bucketGet, bucketPut, assocPut,
    notifyCacheHit, popTracer, wrapCreation, describeCycle, cycleRows, nameOf,
    hne, Ne.symm hne]

/-- C2 witnessed at the concrete classes `"A"` and `"B"`. -/
theorem cycle_detected_witness :
    ((getTop 9 (C2State "A" "B") (.ktype "A")).2 =
      .error (.componentCreation (.ktype "A") (.componentCreation (.ktype "B")
        (.componentCreation (.ktype "A")
          (.circularDependency [.ktype "A", .ktype "B"] (.ktype "A")
            [.text "Circular dependency detected.", .text "",
             .text "Resolution chain:",
             .node 1 "A" "singleton" false,
             .edge "constructor" "b" "B",
             .node 2 "B" "singleton" false,
             .edge "constructor" "a" "A",
             .node 3 "A" "singleton" true,
             .text "",
             .text "Hint: break the cycle with a @configure setter or use a factory/provider."]))))) ∧
    (Key.ktype "A" ∈ [Key.ktype "A", Key.ktype "B"]) ∧
    (Key.ktype "B" ∈ [Key.ktype "A", Key.ktype "B"]) :=
  cycle_detected "A" "B" (by decide)

/-! ## C5 — canonicalization policy -/

/-- Rewriting lemma: `find?` is the head of `filter`. -/
lemma find?_eq_head?_filter {α : Type} (p : α → Bool) (l : List α) :
    l.find? p = (l.filter p).head? := by
  induction l with
  | nil => rfl
  | cons h t ih =>
    by_cases hp : p h
    · rw [List.find?_cons_of_pos _ hp, List.filter_cons_of_pos hp, List.head?_cons]
    · rw [List.find?_cons_of_neg _ hp, List.filter_cons_of_neg hp, ih]

/-- Modelled from the claim (spec side of the refinement): if the exact key
has a registry binding it is returned unchanged; otherwise a type key
selects among the descriptors whose produced/concrete type is a proper
subtype of it, preferring a primary-flagged candidate and otherwise the
first-registered one; otherwise a string key selects the first descriptor
whose declared name equals it; a key matching nothing passes through
unchanged. -/
def canonicalKeySpec (st : PicoState) (key : Key) : Key :=
  if factoryHas st key then key
  else
    let table := if st.hasLocator then st.metadata else []
    match key with
    | .ktype name =>
      let isCand : Key × ProviderMetadata → Bool := fun kmd =>
        match kmd.2.provided_type.orElse (fun _ => kmd.2.concrete_class) with
        | some typ => (typ != name) && st.typetable.issubclass typ name
        | none => false
      let cands := table.filter isCand
      match cands.find? (fun kmd => kmd.2.primary) with
      | some kmd => kmd.1
      | none =>
        match cands with
        | kmd :: _ => kmd.1
        | [] => key
    | .kstr s =>
      match table.find? (fun kmd => kmd.2.pico_name = some s) with
      | some kmd => kmd.1
      | none => key

/-- C5: `_canonical_key` implements exactly the canonicalization policy the
claim states. -/
theorem canonical_key_matches_spec (st : PicoState) (key : Key) :
    canonicalKey st key = canonicalKeySpec st key := by
  unfold canonicalKey canonicalKeySpec
  by_cases hb : factoryHas st key
  · simp [hb]
  · simp only [hb, if_false]
    cases key with
    | kstr s =>
      by_cases hl : st.hasLocator
      · simp [hl]
      · simp [hl]
    | ktype name =>
      by_cases hl : st.hasLocator
      · simp only [hl, if_true]
        have hfm :
            st.metadata.filterMap (fun kmd =>
              match kmd.2.provided_type.orElse (fun _ => kmd.2.concrete_class) with
              | some typ =>
                if typ ≠ name ∧ st.typetable.issubclass typ name then
                  some (kmd.2.primary, kmd.1)
                else none
              | none => none)
            = (st.metadata.filter (fun kmd =>
                match kmd.2.provided_type.orElse (fun _ => kmd.2.concrete_class) with
                | some typ => (typ != name) && st.typetable.issubclass typ name
                | none => false)).map (fun kmd => (kmd.2.primary, kmd.1)) := by
          induction st.metadata with
          | nil => rfl
          | cons h t ih =>
            simp only [List.filterMap_cons, List.filter_cons]
            cases hm : h.2.provided_type.orElse (fun _ => h.2.concrete_class) with
            | none => simpa [hm] using ih
            | some typ =>
              by_cases hp : typ ≠ name ∧ st.typetable.issubclass typ name
              · simp [hm, hp, bne_iff_ne, ih]
              · simp [hm, hp, ih]
        rw [hfm]
        set cands := st.metadata.filter (fun kmd =>
          match kmd.2.provided_type.orElse (fun _ => kmd.2.concrete_class) with
          | some typ => (typ != name) && st.typetable.issubclass typ name
          | none => false) with hcands
        rw [find?_eq_head?_filter]
        rw [show (cands.map (fun kmd => (kmd.2.primary, kmd.1))).filter (fun pk => pk.1)
            = (cands.filter (fun kmd => kmd.2.primary)).map (fun kmd => (kmd.2.primary, kmd.1))
          from by rw [List.filter_map]; rfl]
        cases cands with
        | nil => simp
        | cons c cs =>
          cases hf : (c :: cs).filter (fun kmd => kmd.2.primary) with
          | nil => simp [hf]
          | cons p ps => simp [hf]
      · simp [hl]

/-! ## C8 — interceptor dispatch order -/

/-- The invocation context of `dispatch_method` (`aop.py`), reduced to what
the dispatch needs: the real bound method, modelled as a function from
nothing to the trace of events it emits plus its result
(`next_ctx.method(*next_ctx.args, **next_ctx.kwargs)`). -/
structure MethodCtxM where
  name : String
  method : Unit → List String × Nat

/-- A method interceptor: receives the context and a call-next
continuation (`MethodInterceptor.invoke` in `aop.py`). -/
def InterceptorM : Type :=
  MethodCtxM → (MethodCtxM → List String × Nat) → List String × Nat

/-- Source `dispatch_method` (`aop.py`): invoke the interceptors strictly in list
order, each receiving the continuation onto the rest of the chain; the
final continuation calls the real method. (The Python loop advances a
shared index `idx`; for interceptors that invoke `call_next` once — the
only way the index is observable — this recursion is the same function.) -/
def dispatch_method : List InterceptorM → MethodCtxM → List String × Nat
  | [], ctx => ctx.method ()
  | i :: rest, ctx => i ctx (fun c => dispatch_method rest c)

/-- An interceptor that records its before-logic, calls the next element of
the chain exactly once, then records its after-logic. -/
def logInterceptor (ident : Nat) : InterceptorM := fun ctx next =>
  let r := next ctx
  (("before " ++ toString ident) :: r.1 ++ ["after " ++ toString ident], r.2)

/-- C8: `dispatch_method` runs the interceptor list strictly in declared
order with the final continuation calling the real method: for any list of
before/after-logging interceptors the trace is all before-logics in
declared order, then the real method, then the after-logics in reverse
order; in particular for `I1, I2` around method `M` the order is
I1-before, I2-before, M, I2-after, I1-after. -/
theorem interceptors_run_in_declared_order :
    (∀ (ids : List Nat) (ctx : MethodCtxM),
      dispatch_method (ids.map logInterceptor) ctx =
        (ids.map (fun i => "before " ++ toString i) ++ (ctx.method ()).1
          ++ (ids.reverse.map (fun i => "after " ++ toString i)), (ctx.method ()).2)) ∧
    (dispatch_method [logInterceptor 1, logInterceptor 2]
        ⟨"M", fun _ => (["M"], 0)⟩ =
      (["before 1", "before 2", "M", "after 2", "after 1"], 0)) := by
  constructor
  · intro ids
    induction ids with
    | nil => intro ctx; simp [dispatch_method]
    | cons i rest ih =>
      intro ctx
      simp [dispatch_method, logInterceptor, ih ctx]
  · rfl

end Pico
